import Mathlib

/-!
Shallow embedding of the MCP client transport core
(`src/client/stdio_transport.go`, `src/client/transport_client.go`).

Machine integers: the request-ID counter is Go's `atomic.Int64`; we model it
as an `Int` kept in the signed 64-bit range by explicit wrapping.

Wire data: inbound stdout lines are modelled as `Option JSON` — `some j` for a
line whose bytes parse as the JSON value `j`, `none` for a line that
`json.Unmarshal` rejects.  Blocking operations (the `select` in `SendRequest`)
take the resolving event as an explicit argument; goroutine interleavings are
composed manually in the theorems.
-/

namespace MCPGo

/-- JSON values: the data model of the newline-delimited JSON-RPC frames. -/
inductive JSON where
  | null
  | bool (b : Bool)
  | num (n : Int)
  | str (s : String)
  | arr (elems : List JSON)
  | obj (fields : List (String × JSON))
  deriving Repr

/-- RPCResponse (src/client/stdio_transport.go:19-22): the value sent through a
pending request's buffered channel.  `error` is set (to the server error's
message string) on the error path, `response` (the raw `result` bytes) on the
success path. -/
structure RPCResponse where
  error    : Option String
  response : Option JSON
  deriving Repr

/-- RPCError is the anonymous error struct parsed by `readResponses`
(src/client/stdio_transport.go:226-229).  It declares only `code` and
`message`; a wire `data` field has no destination and is dropped at parse
time. -/
structure RPCError where
  code    : Int
  message : String
  deriving Repr

/-- BaseMessage is the anonymous envelope struct `readResponses` unmarshals
each line into (src/client/stdio_transport.go:221-230). -/
structure BaseMessage where
  jsonrpc : String
  id      : Option Int
  method  : String
  result  : JSON
  error   : Option RPCError
  deriving Repr

/-- Modelled from the spec: the `mcp` package's `NotificationParams` is not
under `src/`.  Per §3's envelope a notification carries `method` and `params`;
`SendNotification` (src/client/stdio_transport.go:158-164) populates the
params' additional-fields map, recorded here as an association list. -/
structure NotificationParams where
  additionalFields : List (String × JSON)
  deriving Repr

/-- Modelled from the spec: the `mcp` package's `JSONRPCNotification` payload
(method plus params) is not under `src/`; per §3 a notification is a `method`
with `params` and no `id`. -/
structure Notification where
  method : String
  params : NotificationParams
  deriving Repr

/-- Frames written to the child's stdin, before serialization.  A `request`
carries the fields `SendRequest` populates (src/client/stdio_transport.go:115-122);
a `notif` carries the fields `SendNotification` populates
(src/client/stdio_transport.go:155-165), its params wrapping the caller's
payload under the additional field `"data"`. -/
inductive Frame where
  | request (id : Int) (method : String) (params : JSON)
  | notif (method : String) (params : NotificationParams)
  deriving Repr

/-- Observable events of a run: a framed write to the child's stdin, a value
sent into a pending request's channel, a notification handler invocation, a
diagnostic print, and a `SetInitialized` store. -/
inductive Event where
  | wrote (f : Frame)
  | delivered (id : Int) (r : RPCResponse)
  | invoked (handler : Nat) (n : Notification)
  | diag (msg : String)
  | setInit (b : Bool)
  deriving Repr

/-- Event.isDelivery tests whether an event resolves a pending slot. -/
def Event.isDelivery : Event → Bool
  | .delivered _ _ => true
  | _ => false

/-- Event.isDiag tests whether an event is a diagnostic print. -/
def Event.isDiag : Event → Bool
  | .diag _ => true
  | _ => false

/-- Event.isNotifWrite tests whether an event writes a notification frame. -/
def Event.isNotifWrite : Event → Bool
  | .wrote (.notif _ _) => true
  | _ => false

/-- Event.isInvokeOf tests whether an event invokes the given handler. -/
def Event.isInvokeOf (h : Nat) : Event → Bool
  | .invoked g _ => g == h
  | _ => false

/-- StdioTransport (src/client/stdio_transport.go:27-39).  The pending-request
registry `responses` keeps only the keys (each maps to a fresh buffered
channel; deliveries into channels are recorded as events).  `requestID` is the
`atomic.Int64` allocator; `doneClosed` records whether the `done` channel has
been closed; `stdinClosed` whether the child's input pipe has been closed;
`notifications` the registered handlers (by identity); `exitStatus` the
child's eventual exit status as returned by `cmd.Wait`. -/
structure StdioTransport where
  requestID     : Int
  responses     : List Int
  doneClosed    : Bool
  initialized   : Bool
  notifications : List Nat
  stdinClosed   : Bool
  exitStatus    : Int
  deriving Repr, DecidableEq

/-- wrap64 reduces an integer into the signed 64-bit range, the semantics of
Go's `int64` overflow. -/
def wrap64 (n : Int) : Int := (n + 2 ^ 63) % 2 ^ 64 - 2 ^ 63

/-- nextRequestId is `t.requestID.Add(1)` (src/client/stdio_transport.go:113):
the incremented counter value, wrapped to `int64`. -/
def nextRequestId (c : Int) : Int := wrap64 (c + 1)

/-- Errors `SendRequest` and `SendNotification` can return, by behavioral
kind. -/
inductive SendError where
  | notInitialized
  | marshalFailed
  | writeFailed
  | ctxCancelled
  | protocol (msg : String)
  deriving Repr, DecidableEq

/-- AwaitOutcome resolves the `select` in `SendRequest`
(src/client/stdio_transport.go:139-150): either the caller's context fires
first, or a value arrives on the response channel first. -/
inductive AwaitOutcome where
  | ctxDone
  | response (r : RPCResponse)
  deriving Repr

/-- receiveResponse is the response arm of `SendRequest`'s select
(src/client/stdio_transport.go:145-149): a set `Error` becomes
`errors.New(*response.Error)` — an error carrying only the message string —
otherwise the raw result bytes are returned. -/
def receiveResponse (r : RPCResponse) : Except SendError (Option JSON) :=
  match r.error with
  | some e => .error (.protocol e)
  | none => .ok r.response

/-- sendRequest models `SendRequest` (src/client/stdio_transport.go:108-151).
`marshalOk` stands for whether `json.Marshal` of the request succeeds; the
write fails exactly when the child's stdin pipe is closed.  Returns the
caller's result, the transport state as this call leaves it, and the events
the call emits. -/
def sendRequest (t : StdioTransport) (method : String) (params : JSON)
    (marshalOk : Bool) (outcome : AwaitOutcome) :
    Except SendError (Option JSON) × StdioTransport × List Event :=
  if t.initialized = false ∧ method ≠ "initialize" then
    (.error .notInitialized, t, [])
  else
    let id := nextRequestId t.requestID
    let t1 : StdioTransport :=
      { t with requestID := id, responses := t.responses ++ [id] }
    if marshalOk = false then
      (.error .marshalFailed, t1, [])
    else if t1.stdinClosed then
      (.error .writeFailed, t1, [])
    else
      let ev := [Event.wrote (Frame.request id method params)]
      match outcome with
      | .ctxDone =>
          (.error .ctxCancelled,
           { t1 with responses := t1.responses.erase id }, ev)
      | .response r => (receiveResponse r, t1, ev)

/-- sendNotification models `SendNotification`
(src/client/stdio_transport.go:154-178): it builds a notification whose
params carry the caller's payload under the additional field `"data"`,
marshals it and writes one framed line.  No registry interaction, no
waiting. -/
def sendNotification (t : StdioTransport) (method : String) (params : JSON)
    (marshalOk : Bool) :
    Except SendError Unit × StdioTransport × List Event :=
  let p : NotificationParams := ⟨[("data", params)]⟩
  if marshalOk = false then
    (.error .marshalFailed, t, [])
  else if t.stdinClosed then
    (.error .writeFailed, t, [])
  else
    (.ok (), t, [Event.wrote (Frame.notif method p)])

/-- onNotification models `OnNotification`
(src/client/stdio_transport.go:181-185): append the handler to the observer
list. -/
def onNotification (t : StdioTransport) (handler : Nat) : StdioTransport :=
  { t with notifications := t.notifications ++ [handler] }

/-- setInitialized models `SetInitialized`
(src/client/stdio_transport.go:202-204). -/
def setInitialized (t : StdioTransport) (b : Bool) : StdioTransport :=
  { t with initialized := b }

/-- Outcomes of `Close`: in Go, `close` of an already-closed channel panics,
so the second call never reaches `stdin.Close()` or `cmd.Wait()`. -/
inductive CloseResult where
  | panicked (msg : String)
  | failed (msg : String)
  | exited (status : Int)
  deriving Repr, DecidableEq

/-- close models `Close` (src/client/stdio_transport.go:188-194): close the
`done` channel (a panic if it is already closed), close the child's stdin
(an error if already closed), then `cmd.Wait()` returning the child's exit
status. -/
def close (t : StdioTransport) : CloseResult × StdioTransport :=
  if t.doneClosed then
    (.panicked "close of closed channel", t)
  else
    let t1 : StdioTransport := { t with doneClosed := true }
    if t1.stdinClosed then
      (.failed "failed to close stdin", t1)
    else
      (.exited t.exitStatus, { t1 with stdinClosed := true })

/-- lookupField finds the value of key `k` in a JSON object's field list,
with `encoding/json`'s later-key-wins policy. -/
def lookupField (fields : List (String × JSON)) (k : String) : Option JSON :=
  match fields with
  | [] => none
  | (k2, v) :: rest =>
    match lookupField rest k with
    | some w => some w
    | none => if k2 = k then some v else none

/-- decodeStringField is `encoding/json` decoding of a `string` struct field:
an absent or null value leaves the zero string, a string value is taken, any
other value is an unmarshal error. -/
def decodeStringField : Option JSON → Option String
  | none => some ""
  | some .null => some ""
  | some (.str s) => some s
  | some _ => none

/-- decodeIdField is `encoding/json` decoding of the `*int64` field `id`: an
absent or null value leaves the pointer nil, an integer in `int64` range is
taken, anything else is an unmarshal error. -/
def decodeIdField : Option JSON → Option (Option Int)
  | none => some none
  | some .null => some none
  | some (.num n) =>
      if -(2 ^ 63) ≤ n ∧ n < 2 ^ 63 then some (some n) else none
  | some _ => none

/-- decodeErrorField is `encoding/json` decoding of the anonymous error
struct pointer of `readResponses` (src/client/stdio_transport.go:226-229): it
reads only `code` and `message`; any `data` member of the wire error object is
not looked at. -/
def decodeErrorField : Option JSON → Option (Option RPCError)
  | none => some none
  | some .null => some none
  | some (.obj fields) =>
      match lookupField fields "code", lookupField fields "message" with
      | none, none => some (some ⟨0, ""⟩)
      | some (.num c), none => some (some ⟨c, ""⟩)
      | none, some (.str m) => some (some ⟨0, m⟩)
      | some (.num c), some (.str m) => some (some ⟨c, m⟩)
      | _, _ => none
  | some _ => none

/-- parseBaseMessage is `json.Unmarshal` of one line into the envelope struct
of `readResponses` (src/client/stdio_transport.go:221-234): `none` when the
unmarshal errors (the loop then skips the line).  A top-level `null` succeeds
leaving the zero struct, as in Go; the `result` field is a `json.RawMessage`,
kept as the raw JSON value (absent ↦ null); fields other than the declared
five are ignored. -/
def parseBaseMessage (j : JSON) : Option BaseMessage :=
  match j with
  | .null => some ⟨"", none, "", .null, none⟩
  | .obj fields =>
    match decodeStringField (lookupField fields "jsonrpc"),
          decodeIdField (lookupField fields "id"),
          decodeStringField (lookupField fields "method"),
          decodeErrorField (lookupField fields "error") with
    | some v, some i, some m, some e =>
        some ⟨v, i, m, (lookupField fields "result").getD .null, e⟩
    | _, _, _, _ => none
  | _ => none

/-- Modelled from the spec: the unmarshal of a notification line into the
`mcp` package's `JSONRPCNotification` (src/client/stdio_transport.go:238-241)
is code outside `src/`; per §3 a notification is a `method` with `params`, so
the decoder takes `method` as a string and the `params` object's members as
the params' additional fields (absent or null params give empty params). -/
def parseNotification (j : JSON) : Option Notification :=
  match j with
  | .null => some ⟨"", ⟨[]⟩⟩
  | .obj fields =>
    match decodeStringField (lookupField fields "method") with
    | none => none
    | some m =>
      match lookupField fields "params" with
      | none => some ⟨m, ⟨[]⟩⟩
      | some .null => some ⟨m, ⟨[]⟩⟩
      | some (.obj p) => some ⟨m, ⟨p⟩⟩
      | some _ => none
  | _ => none

/-- processLine is one iteration of the body of `readResponses`
(src/client/stdio_transport.go:221-267) on a line already read: unmarshal the
envelope (silently skipping the line on failure), dispatch a message without
id to every registered handler, and for a message with id resolve the pending
slot if one is registered — sending the error's message string, or the raw
result — and remove it; a reply whose id has no pending slot is silently
ignored. -/
def processLine (t : StdioTransport) (line : Option JSON) :
    StdioTransport × List Event :=
  match line with
  | none => (t, [])
  | some j =>
    match parseBaseMessage j with
    | none => (t, [])
    | some m =>
      match m.id with
      | none =>
        match parseNotification j with
        | none => (t, [])
        | some n => (t, t.notifications.map (fun h => Event.invoked h n))
      | some id =>
        if id ∈ t.responses then
          let r : RPCResponse :=
            match m.error with
            | some e => ⟨some e.message, none⟩
            | none => ⟨none, some m.result⟩
          ({ t with responses := t.responses.erase id },
           [Event.delivered id r])
        else (t, [])

/-- ReadEnd is what ends the stdout stream once the given lines are consumed:
end-of-file, or a fatal read error. -/
inductive ReadEnd where
  | eof
  | fatal
  deriving Repr, DecidableEq

/-- readResponses models the read loop (src/client/stdio_transport.go:207-270)
run over a list of inbound stdout lines followed by a stream end.  Each
iteration first polls the `done` channel and returns if it is closed;
otherwise it reads a line and processes it.  At stream end the loop prints a
diagnostic for a non-EOF error and returns — it touches neither the registry
nor the pending channels on the way out. -/
def readResponses (t : StdioTransport) (lines : List (Option JSON))
    (e : ReadEnd) : StdioTransport × List Event :=
  match lines with
  | [] =>
    if t.doneClosed then (t, [])
    else
      match e with
      | .eof => (t, [])
      | .fatal => (t, [Event.diag "Error reading response"])
  | l :: rest =>
    if t.doneClosed then (t, [])
    else
      let s1 := processLine t l
      let s2 := readResponses s1.1 rest e
      (s2.1, s1.2 ++ s2.2)

/-- Errors of the client's `Initialize` (src/client/transport_client.go:36-71),
by the step that failed. -/
inductive InitError where
  | send (e : SendError)
  | unmarshalFailed
  | notif (e : SendError)
  deriving Repr, DecidableEq

/-- clientInit models `TransportMCPClient.Initialize`
(src/client/transport_client.go:36-71) against a stdio transport: send the
`"initialize"` request with the handshake params, await the reply, unmarshal
it into the result type (`resultParses` stands for that unmarshal
succeeding), send the `"notifications/initialized"` notification with a nil
payload, then `SetInitialized(true)`.  Any failing step returns its error
with no further steps taken. -/
def clientInit (t : StdioTransport) (params : JSON) (marshalOk : Bool)
    (outcome : AwaitOutcome) (resultParses : Bool) (notifMarshalOk : Bool) :
    Except InitError (Option JSON) × StdioTransport × List Event :=
  match sendRequest t "initialize" params marshalOk outcome with
  | (.error e, t1, ev) => (.error (.send e), t1, ev)
  | (.ok r, t1, ev) =>
    if resultParses = false then (.error .unmarshalFailed, t1, ev)
    else
      match sendNotification t1 "notifications/initialized" .null
          notifMarshalOk with
      | (.error e, t2, ev2) => (.error (.notif e), t2, ev ++ ev2)
      | (.ok _, t2, ev2) =>
          (.ok r, setInitialized t2 true,
           ev ++ ev2 ++ [Event.setInit true])

/-- Modelled from the spec: the JSON encoding of the `mcp` package's
`JSONRPCNotification` is code outside `src/`.  Per §3 the wire envelope of a
notification is an object with `jsonrpc`, `method` and `params`; the `params`
value renders the params' additional-fields map as a JSON object (a Go struct
or map value can render as an object, never as JSON `null`). -/
def encodeNotifFrame (method : String) (p : NotificationParams) : JSON :=
  .obj [("jsonrpc", .str "2.0"), ("method", .str method),
        ("params", .obj p.additionalFields)]

/-- wireParamsOfFrame gives the wire `params` value of a frame: a request's
params pass through verbatim, a notification's render its additional-fields
map as in `encodeNotifFrame`. -/
def wireParamsOfFrame : Frame → JSON
  | .request _ _ p => p
  | .notif _ p => .obj p.additionalFields

/-- nthRequestId is the value of the request-ID allocator after `n`
allocations from a fresh transport (`requestID` starts at 0), i.e. the id of
the n-th request sent on the session. -/
def nthRequestId : Nat → Int
  | 0 => 0
  | n + 1 => nextRequestId (nthRequestId n)

/-- tFresh is the transport as `NewStdioTransport` constructs it
(src/client/stdio_transport.go:64-71): counter 0, empty registry, open
channels, not yet initialized; the child's eventual exit status taken as 0. -/
def tFresh : StdioTransport := ⟨0, [], false, false, [], false, 0⟩

/-- tReady is a transport after a completed handshake: one request (id 1)
already exchanged and `initialized` set. -/
def tReady : StdioTransport := ⟨1, [], false, true, [], false, 0⟩

/-- tPend is a ready transport with one pending request, id 1, whose caller
is blocked in `SendRequest`. -/
def tPend : StdioTransport := ⟨1, [1], false, true, [], false, 0⟩

/-- tBrokenPipe is a ready transport whose child has closed its stdin pipe,
so writes to it fail. -/
def tBrokenPipe : StdioTransport := ⟨1, [], false, true, [], true, 0⟩

/-- errLine is a wire reply carrying a JSON-RPC error object with a code, a
message and a data member. -/
def errLine (i c : Int) (m : String) (d : JSON) : JSON :=
  .obj [("jsonrpc", .str "2.0"), ("id", .num i),
        ("error", .obj [("code", .num c), ("message", .str m),
                        ("data", d)])]

/-- resLine is a wire reply carrying a result. -/
def resLine (i : Int) (v : JSON) : JSON :=
  .obj [("jsonrpc", .str "2.0"), ("id", .num i), ("result", v)]

/-- noJsonrpcLine is a wire reply for id 1 that lacks the `jsonrpc` field. -/
def noJsonrpcLine : JSON := .obj [("id", .num 1), ("result", .str "r")]

/-- notifLine is a wire notification (no id). -/
def notifLine : JSON := .obj [("jsonrpc", .str "2.0"),
                              ("method", .str "notifications/x")]

end MCPGo

namespace MCPGo

/-- C1 counterexample: a ready transport with one pending request whose
stdout hits end-of-stream.  The read loop returns with the pending slot still
registered and emits no event at all — in particular it aborts no slot and
delivers nothing to the blocked caller, contrary to the claimed
`abort_all(TransportClosed)`. -/
theorem C1_read_loop_exit_leaves_pending_cex :
    readResponses tPend [] ReadEnd.eof = (tPend, []) ∧
    tPend.responses = [1] := by
  exact ⟨rfl, rfl⟩

/-- C1 amended: when the read loop terminates because of end-of-stream or a
fatal read error, it simply returns: the pending-request registry is left
exactly as it was and no delivery reaches any pending slot, so a caller
blocked inside SendRequest is not released by the loop's exit (only its own
context cancellation can release it). -/
theorem C1_read_loop_exit_aborts_nothing (t : StdioTransport) (e : ReadEnd) :
    (readResponses t [] e).1.responses = t.responses ∧
    (readResponses t [] e).2.filter Event.isDelivery = [] := by
  cases e <;> cases h : t.doneClosed <;>
    simp [readResponses, h, Event.isDelivery]

/-- C3 counterexample: on a freshly constructed transport the first Close
returns the child's exit status, but a second Close on the resulting state
panics (Go panics on closing the already-closed `done` channel) instead of
returning the same status. -/
theorem C3_close_twice_panics_cex :
    (close tFresh).1 = CloseResult.exited 0 ∧
    (close (close tFresh).2).1 =
      CloseResult.panicked "close of closed channel" := by
  exact ⟨rfl, rfl⟩

/-- C3 amended: Close is not idempotent.  A first Close on an open transport
closes the `done` channel and the child's stdin and returns the child's exit
status; any further Close panics when it closes the already-closed `done`
channel, before reaching the child's streams. -/
theorem C3_close_not_idempotent (t : StdioTransport)
    (h1 : t.doneClosed = false) (h2 : t.stdinClosed = false) :
    close t = (CloseResult.exited t.exitStatus,
               { t with doneClosed := true, stdinClosed := true }) ∧
    (close { t with doneClosed := true, stdinClosed := true }).1 =
      CloseResult.panicked "close of closed channel" := by
  simp [close, h1, h2]

/-- C3 witness: the amended statement at the freshly constructed transport. -/
theorem C3_close_not_idempotent_witness :
    close tFresh = (CloseResult.exited 0,
      { tFresh with doneClosed := true, stdinClosed := true }) ∧
    (close { tFresh with doneClosed := true, stdinClosed := true }).1 =
      CloseResult.panicked "close of closed channel" :=
  C3_close_not_idempotent tFresh rfl rfl

/-- C5 confirmed: SendRequest on a transport that has not completed
initialization, with any method other than `"initialize"`, returns the
not-initialized error before allocating an id, touching the registry, or
writing anything to the child: the state is returned unchanged and no event
is emitted. -/
theorem C5_uninitialized_request_rejected (t : StdioTransport)
    (method : String) (params : JSON) (marshalOk : Bool)
    (outcome : AwaitOutcome) (h1 : t.initialized = false)
    (h2 : method ≠ "initialize") :
    sendRequest t method params marshalOk outcome =
      (.error .notInitialized, t, []) := by
  simp [sendRequest, h1, h2]

/-- C5 witness: a `"ping"` on the freshly constructed transport is rejected
with the state unchanged and nothing written. -/
theorem C5_uninitialized_request_rejected_witness :
    tFresh.initialized = false ∧ "ping" ≠ "initialize" ∧
    sendRequest tFresh "ping" JSON.null true AwaitOutcome.ctxDone =
      (.error .notInitialized, tFresh, []) :=
  ⟨rfl, by decide,
   C5_uninitialized_request_rejected tFresh "ping" JSON.null true
     AwaitOutcome.ctxDone rfl (by decide)⟩

/-- C2 counterexample: two server error replies for pending id 1 that differ
in their integer code (-32601 vs -32000) and in their data member are
delivered to the caller as the very same value, and the surfaced error
carries only the message string — so the code and the data are not
preserved, let alone verbatim. -/
theorem C2_error_code_data_dropped_cex :
    processLine tPend (some (errLine 1 (-32601) "boom" (JSON.str "x"))) =
      processLine tPend (some (errLine 1 (-32000) "boom" JSON.null)) ∧
    (processLine tPend (some (errLine 1 (-32601) "boom" (JSON.str "x")))).2 =
      [Event.delivered 1 ⟨some "boom", none⟩] ∧
    receiveResponse ⟨some "boom", none⟩ = .error (.protocol "boom") := by
  exact ⟨rfl, rfl, rfl⟩

/-- C2 amended: when the server replies to a pending request with a JSON-RPC
error object, the read loop delivers only the error's message string (the
parse struct declares no `data` member and the delivery drops the code), and
the caller receives an error carrying exactly that message. -/
theorem C2_error_message_only_surfaced (t : StdioTransport) (i c : Int)
    (m : String) (d : JSON) (hmem : i ∈ t.responses)
    (hlo : -(2 ^ 63) ≤ i) (hhi : i < 2 ^ 63) :
    processLine t (some (errLine i c m d)) =
      ({ t with responses := t.responses.erase i },
       [Event.delivered i ⟨some m, none⟩]) ∧
    receiveResponse ⟨some m, none⟩ = .error (.protocol m) := by
  refine ⟨?_, rfl⟩
  norm_num at hlo hhi
  simp [processLine, parseBaseMessage, errLine, lookupField,
        decodeStringField, decodeIdField, decodeErrorField, hmem, hlo, hhi]

/-- C2 witness: the amended statement at the pending-id-1 transport with the
concrete error code -32601, message "boom" and data "x". -/
theorem C2_error_message_only_surfaced_witness :
    processLine tPend (some (errLine 1 (-32601) "boom" (JSON.str "x"))) =
      ({ tPend with responses := tPend.responses.erase 1 },
       [Event.delivered 1 ⟨some "boom", none⟩]) ∧
    receiveResponse ⟨some "boom", none⟩ = .error (.protocol "boom") :=
  C2_error_message_only_surfaced tPend 1 (-32601) "boom" (JSON.str "x")
    (by decide) (by decide) (by decide)

/-- wrap64 always produces a value in the signed 64-bit range (lower
bound). -/
theorem wrap64_lb (n : Int) : -(2 ^ 63) ≤ wrap64 n := by
  have h : 0 ≤ (n + 2 ^ 63) % 2 ^ 64 := Int.emod_nonneg _ (by norm_num)
  unfold wrap64
  omega

/-- wrap64 always produces a value in the signed 64-bit range (upper
bound). -/
theorem wrap64_ub (n : Int) : wrap64 n < 2 ^ 63 := by
  have h : (n + 2 ^ 63) % 2 ^ 64 < 2 ^ 64 :=
    Int.emod_lt_of_pos _ (by norm_num)
  unfold wrap64
  omega

/-- C4 counterexample: on a ready transport a `"ping"` whose context fires
first returns the cancellation error with its slot (id 2) removed — but when
the late reply for id 2 then arrives, the read loop emits no event at all: no
"unsolicited response" diagnostic exists in the code, the reply is dropped
silently. -/
theorem C4_late_reply_no_diag_cex :
    (sendRequest tReady "ping" JSON.null true AwaitOutcome.ctxDone).1 =
      .error .ctxCancelled ∧
    (sendRequest tReady "ping" JSON.null true
        AwaitOutcome.ctxDone).2.1.responses = [] ∧
    processLine
        (sendRequest tReady "ping" JSON.null true AwaitOutcome.ctxDone).2.1
        (some (resLine 2 (JSON.str "late"))) =
      ((sendRequest tReady "ping" JSON.null true AwaitOutcome.ctxDone).2.1,
       []) := by
  exact ⟨rfl, rfl, rfl⟩

/-- C4 amended: if the caller's cancellation signal fires before the reply,
SendRequest returns the cancellation error and removes the pending slot; a
reply for that id arriving afterwards is discarded silently — the transport
state does not change and no diagnostic is emitted — and the session remains
usable: a subsequent request on the same transport succeeds. -/
theorem C4_cancel_removes_slot_late_reply_silent (t : StdioTransport)
    (method : String) (params : JSON) (v : JSON)
    (hinit : t.initialized = true) (hstdin : t.stdinClosed = false)
    (hfresh : nextRequestId t.requestID ∉ t.responses) :
    sendRequest t method params true AwaitOutcome.ctxDone =
      (.error .ctxCancelled,
       { t with requestID := nextRequestId t.requestID },
       [Event.wrote
          (Frame.request (nextRequestId t.requestID) method params)]) ∧
    processLine { t with requestID := nextRequestId t.requestID }
        (some (resLine (nextRequestId t.requestID) v)) =
      ({ t with requestID := nextRequestId t.requestID }, []) ∧
    (sendRequest { t with requestID := nextRequestId t.requestID } method
        params true (AwaitOutcome.response ⟨none, some v⟩)).1 =
      .ok (some v) := by
  have hlo := wrap64_lb (t.requestID + 1)
  have hhi := wrap64_ub (t.requestID + 1)
  norm_num at hlo hhi
  unfold nextRequestId at hfresh
  refine ⟨?_, ?_, ?_⟩
  · have h1 : (t.responses ++ [nextRequestId t.requestID]).erase
        (nextRequestId t.requestID) = t.responses := by
      rw [List.erase_append_right _ (by simpa [nextRequestId] using hfresh)]
      simp
    simp [sendRequest, hinit, hstdin, h1]
  · simp [processLine, parseBaseMessage, resLine, lookupField,
          decodeStringField, decodeIdField, decodeErrorField,
          nextRequestId, hlo, hhi, hfresh]
  · simp [sendRequest, hinit, hstdin, receiveResponse]

/-- C4 witness: the amended statement on the ready transport, where the
cancelled request gets id 2 and the late reply carries "late". -/
theorem C4_cancel_removes_slot_late_reply_silent_witness :
    sendRequest tReady "ping" JSON.null true AwaitOutcome.ctxDone =
      (.error .ctxCancelled,
       { tReady with requestID := nextRequestId tReady.requestID },
       [Event.wrote (Frame.request (nextRequestId tReady.requestID) "ping"
          JSON.null)]) ∧
    processLine { tReady with requestID := nextRequestId tReady.requestID }
        (some (resLine (nextRequestId tReady.requestID) (JSON.str "late"))) =
      ({ tReady with requestID := nextRequestId tReady.requestID }, []) ∧
    (sendRequest { tReady with requestID := nextRequestId tReady.requestID }
        "ping" JSON.null true
        (AwaitOutcome.response ⟨none, some (JSON.str "late")⟩)).1 =
      .ok (some (JSON.str "late")) :=
  C4_cancel_removes_slot_late_reply_silent tReady "ping" JSON.null
    (JSON.str "late") rfl rfl (by decide)

/-- C6 counterexample: a successful handshake on the fresh transport does
send exactly one `notifications/initialized` notification — but its wire
`params` value is the object wrapping the nil payload under the key `"data"`,
not JSON null. -/
theorem C6_handshake_notification_params_not_null_cex :
    (clientInit tFresh (JSON.str "p") true
        (AwaitOutcome.response ⟨none, some (JSON.str "res")⟩) true
        true).2.2.filter Event.isNotifWrite =
      [Event.wrote (Frame.notif "notifications/initialized"
         ⟨[("data", JSON.null)]⟩)] ∧
    wireParamsOfFrame (Frame.notif "notifications/initialized"
        ⟨[("data", JSON.null)]⟩) ≠ JSON.null := by
  exact ⟨rfl, fun h => JSON.noConfusion h⟩

/-- C6 amended: a successful handshake performs exactly this sequence: write
the `"initialize"` request, consume its reply, write exactly one
`notifications/initialized` notification — whose params wrap the nil payload
under the additional field `"data"` (a JSON object on the wire, not null) —
and only then set the initialized flag that gates ordinary requests.  When
the reply to `initialize` is a server error, no notification is written and
the flag is not set. -/
theorem C6_handshake_sequence (t : StdioTransport) (params : JSON)
    (v : Option JSON) (e : String) (hstdin : t.stdinClosed = false) :
    clientInit t params true (AwaitOutcome.response ⟨none, v⟩) true true =
      (.ok v,
       { t with requestID := nextRequestId t.requestID,
                responses := t.responses ++ [nextRequestId t.requestID],
                initialized := true },
       [Event.wrote (Frame.request (nextRequestId t.requestID) "initialize"
          params),
        Event.wrote (Frame.notif "notifications/initialized"
          ⟨[("data", JSON.null)]⟩),
        Event.setInit true]) ∧
    (clientInit t params true (AwaitOutcome.response ⟨some e, none⟩) true
        true).2.2.filter Event.isNotifWrite = [] ∧
    (clientInit t params true (AwaitOutcome.response ⟨some e, none⟩) true
        true).2.1.initialized = t.initialized := by
  refine ⟨?_, ?_, ?_⟩ <;>
    simp [clientInit, sendRequest, sendNotification, setInitialized,
          receiveResponse, hstdin, Event.isNotifWrite]

/-- C6 witness: the amended statement on the fresh transport, with handshake
params "p", a successful reply "res", and the server error "bad" for the
failing branch. -/
theorem C6_handshake_sequence_witness :
    clientInit tFresh (JSON.str "p") true
        (AwaitOutcome.response ⟨none, some (JSON.str "res")⟩) true true =
      (.ok (some (JSON.str "res")),
       { tFresh with requestID := nextRequestId tFresh.requestID,
                     responses :=
                       tFresh.responses ++ [nextRequestId tFresh.requestID],
                     initialized := true },
       [Event.wrote (Frame.request (nextRequestId tFresh.requestID)
          "initialize" (JSON.str "p")),
        Event.wrote (Frame.notif "notifications/initialized"
          ⟨[("data", JSON.null)]⟩),
        Event.setInit true]) ∧
    (clientInit tFresh (JSON.str "p") true
        (AwaitOutcome.response ⟨some "bad", none⟩) true
        true).2.2.filter Event.isNotifWrite = [] ∧
    (clientInit tFresh (JSON.str "p") true
        (AwaitOutcome.response ⟨some "bad", none⟩) true
        true).2.1.initialized = tFresh.initialized :=
  C6_handshake_sequence tFresh (JSON.str "p") (some (JSON.str "res")) "bad"
    rfl

/-- wrap64 is the identity on the non-negative half of the 64-bit range. -/
theorem wrap64_eq_of_small (n : Int) (h0 : 0 ≤ n)
    (h1 : n < 9223372036854775808) : wrap64 n = n := by
  unfold wrap64
  norm_num
  omega

/-- nthRequestId is the identity embedding before the counter wraps: the n-th
allocated request id is the integer n while n is below 2^63. -/
theorem nthRequestId_small (n : Nat) (h : (n : Int) < 9223372036854775808) :
    nthRequestId n = (n : Int) := by
  induction n with
  | zero => rfl
  | succ k ih =>
    have hk : ((k : Nat) : Int) < 9223372036854775808 := by
      push_cast at h ⊢
      omega
    have h1 : nthRequestId (k + 1) = wrap64 ((k : Int) + 1) := by
      rw [nthRequestId, ih hk, nextRequestId]
    rw [h1, wrap64_eq_of_small _ (by omega)
         (by push_cast at h; omega)]
    push_cast
    ring

/-- C7 counterexample: the id allocator is a wrapping 64-bit counter, so the
sequence of allocated ids is not strictly increasing: the id allocated by the
2^63-rd request is smaller than the one allocated by the request before it
(the counter wraps from 2^63 - 1 to -2^63). -/
theorem C7_request_id_wraps_cex :
    nthRequestId 9223372036854775808 < nthRequestId 9223372036854775807 := by
  have h1 : nthRequestId 9223372036854775807 = (9223372036854775807 : Int) :=
    nthRequestId_small 9223372036854775807 (by norm_num)
  have hd : (9223372036854775808 : Nat) = 9223372036854775807 + 1 := by
    norm_num
  have h2 : nthRequestId 9223372036854775808 = -9223372036854775808 := by
    rw [hd, nthRequestId, h1, nextRequestId]
    unfold wrap64
    norm_num
  rw [h1, h2]
  norm_num

/-- C7 amended: request ids start at 1 and are strictly increasing (hence
never reused) for as long as fewer than 2^63 requests have been allocated in
the session; every SendRequest call that passes the initialization gate
advances the allocator to `nextRequestId`.  The monotonicity ceases only when
the 64-bit counter wraps (see the counterexample). -/
theorem C7_request_ids_strictly_increasing_before_wrap :
    nthRequestId 1 = 1 ∧
    (∀ m n : Nat, m < n → (n : Int) < 2 ^ 63 →
      nthRequestId m < nthRequestId n) ∧
    (∀ (t : StdioTransport) (method : String) (params : JSON)
       (marshalOk : Bool) (outcome : AwaitOutcome),
       t.initialized = true →
       (sendRequest t method params marshalOk outcome).2.1.requestID =
         nextRequestId t.requestID) := by
  refine ⟨rfl, ?_, ?_⟩
  · intro m n hmn hn
    norm_num at hn
    have hn2 : ((n : Nat) : Int) < 9223372036854775808 := by
      exact_mod_cast hn
    have hm : ((m : Nat) : Int) < 9223372036854775808 := by
      push_cast at hn2 ⊢
      omega
    rw [nthRequestId_small m hm, nthRequestId_small n hn2]
    exact_mod_cast hmn
  · intro t method params marshalOk outcome hinit
    cases marshalOk <;> cases outcome <;>
      simp [sendRequest, hinit] <;> split <;> rfl

/-- C7 witness: the amended statement evaluated at the first two allocations
and at a concrete ready transport. -/
theorem C7_request_ids_strictly_increasing_before_wrap_witness :
    nthRequestId 1 = 1 ∧ nthRequestId 1 < nthRequestId 2 ∧
    (sendRequest tReady "ping" JSON.null true
        AwaitOutcome.ctxDone).2.1.requestID = nextRequestId tReady.requestID :=
  ⟨C7_request_ids_strictly_increasing_before_wrap.1,
   C7_request_ids_strictly_increasing_before_wrap.2.1 1 2 (by decide)
     (by norm_num),
   C7_request_ids_strictly_increasing_before_wrap.2.2 tReady "ping"
     JSON.null true AwaitOutcome.ctxDone rfl⟩

/-- C8 counterexample: with id 1 pending, the loop reads a malformed line and
then a reply that parses but lacks the `jsonrpc` field.  It continues past
the malformed line and delivers the later frame, but emits no diagnostic for
either, and the jsonrpc-less frame is not skipped — it resolves the pending
slot. -/
theorem C8_malformed_silent_and_missing_jsonrpc_processed_cex :
    (readResponses tPend [none, some noJsonrpcLine] ReadEnd.eof).2 =
      [Event.delivered 1 ⟨none, some (JSON.str "r")⟩] ∧
    (readResponses tPend [none, some noJsonrpcLine]
        ReadEnd.eof).2.filter Event.isDiag = [] ∧
    (readResponses tPend [none, some noJsonrpcLine]
        ReadEnd.eof).1.responses = [] := by
  exact ⟨rfl, rfl, rfl⟩

/-- C8 amended: a line that fails to parse as JSON is skipped silently — no
diagnostic is emitted and the state is untouched — and the loop simply
continues with the remaining lines (it never terminates because of a
malformed frame); the `jsonrpc` field is not checked, so frames lacking it
are processed like any other. -/
theorem C8_malformed_skipped_silently (t : StdioTransport)
    (rest : List (Option JSON)) (e : ReadEnd) :
    processLine t none = (t, []) ∧
    readResponses t (none :: rest) e =
      (if t.doneClosed = true then (t, []) else readResponses t rest e) := by
  refine ⟨rfl, ?_⟩
  cases h : t.doneClosed <;> simp [readResponses, processLine, h]

/-- C9 confirmed: when a notification line is dispatched, exactly the
handlers registered at that moment are invoked, each once, in registration
order; a handler registered beforehand via OnNotification is therefore
invoked exactly once with the notification, and a handler not yet registered
when the notification arrives is not invoked for it. -/
theorem C9_observer_dispatch (t : StdioTransport) (h : Nat) (j : JSON)
    (m : BaseMessage) (n : Notification)
    (hbase : parseBaseMessage j = some m) (hid : m.id = none)
    (hnotif : parseNotification j = some n)
    (hnew : h ∉ t.notifications) :
    processLine (onNotification t h) (some j) =
      (onNotification t h,
       (t.notifications ++ [h]).map (fun g => Event.invoked g n)) ∧
    ((t.notifications ++ [h]).map (fun g => Event.invoked g n)).countP
      (Event.isInvokeOf h) = 1 ∧
    (processLine t (some j)).2.countP (Event.isInvokeOf h) = 0 := by
  refine ⟨?_, ?_, ?_⟩
  · simp [processLine, hbase, hid, hnotif, onNotification]
  · simp [List.countP_append, List.countP_map, Function.comp,
          Event.isInvokeOf]
    intro a ha hah
    exact hnew (hah ▸ ha)
  · simp [processLine, hbase, hid, hnotif, List.countP_map,
          Function.comp, Event.isInvokeOf]
    intro a ha hah
    exact hnew (hah ▸ ha)

/-- C9 witness: a concrete notification line on the ready transport with the
single handler 0 registered beforehand. -/
theorem C9_observer_dispatch_witness :
    processLine (onNotification tReady 0) (some notifLine) =
      (onNotification tReady 0,
       (tReady.notifications ++ [0]).map
         (fun g => Event.invoked g ⟨"notifications/x", ⟨[]⟩⟩)) ∧
    ((tReady.notifications ++ [0]).map
       (fun g => Event.invoked g ⟨"notifications/x", ⟨[]⟩⟩)).countP
      (Event.isInvokeOf 0) = 1 ∧
    (processLine tReady (some notifLine)).2.countP (Event.isInvokeOf 0) =
      0 :=
  C9_observer_dispatch tReady 0 notifLine
    ⟨"2.0", none, "notifications/x", .null, none⟩
    ⟨"notifications/x", ⟨[]⟩⟩ rfl rfl rfl (by decide)

/-- C10 confirmed: once SendRequest has inserted the pending slot, neither a
marshal failure nor a write failure removes it: the error is returned with
the freshly allocated id still registered (and nothing written), so the
registry is not restored to its pre-call state. -/
theorem C10_failed_send_leaves_slot (t : StdioTransport) (method : String)
    (params : JSON) (outcome : AwaitOutcome)
    (hinit : t.initialized = true) :
    sendRequest t method params false outcome =
      (.error .marshalFailed,
       { t with requestID := nextRequestId t.requestID,
                responses := t.responses ++ [nextRequestId t.requestID] },
       []) ∧
    (t.stdinClosed = true →
      sendRequest t method params true outcome =
        (.error .writeFailed,
         { t with requestID := nextRequestId t.requestID,
                  responses := t.responses ++ [nextRequestId t.requestID] },
         [])) ∧
    nextRequestId t.requestID ∈
      t.responses ++ [nextRequestId t.requestID] := by
  refine ⟨?_, ?_, by simp⟩
  · simp [sendRequest, hinit]
  · intro hw
    simp [sendRequest, hinit, hw]

/-- C10 witness: the confirmed statement on a ready transport whose child has
closed its stdin pipe, so a marshalled write genuinely fails. -/
theorem C10_failed_send_leaves_slot_witness :
    sendRequest tBrokenPipe "ping" JSON.null false AwaitOutcome.ctxDone =
      (.error .marshalFailed,
       { tBrokenPipe with
           requestID := nextRequestId tBrokenPipe.requestID,
           responses :=
             tBrokenPipe.responses ++ [nextRequestId tBrokenPipe.requestID] },
       []) ∧
    sendRequest tBrokenPipe "ping" JSON.null true AwaitOutcome.ctxDone =
      (.error .writeFailed,
       { tBrokenPipe with
           requestID := nextRequestId tBrokenPipe.requestID,
           responses :=
             tBrokenPipe.responses ++ [nextRequestId tBrokenPipe.requestID] },
       []) ∧
    nextRequestId tBrokenPipe.requestID ∈
      tBrokenPipe.responses ++ [nextRequestId tBrokenPipe.requestID] := by
  have h := C10_failed_send_leaves_slot tBrokenPipe "ping" JSON.null
    AwaitOutcome.ctxDone rfl
  exact ⟨h.1, h.2.1 rfl, h.2.2⟩

end MCPGo
